import Mathlib

/-!
Shallow embedding of `netlify/functions/gemini-predict.js`: a single
serverless handler that parses a POST body, calls the Gemini API, validates
the response, inserts the parsed prediction into a Supabase table, and
returns the saved row or a classified error.

External effects (JSON.parse, the AI call, the DB insert) are modelled by an
environment of oracles; the handler additionally returns the trace of
outbound calls it made, so that claims about calls never happening or
happening exactly once are statable.
-/

namespace GeminiPredict

/-- Result of `JSON.parse(event.body)` destructured as `{teamA, teamB, matchCategory}`. -/
structure ReqBody where
  teamA : String
  teamB : String
  matchCategory : String
deriving DecidableEq, Repr

/-- Abstract model of a parsed JSON value (the shape of `predictionData` is irrelevant
to the handler, which only forwards it to the insert). -/
structure JsonVal where
  val : String
deriving DecidableEq, Repr

/-- One element of `candidate.content.parts`; `text` is `none` when the field is absent. -/
structure ContentPart where
  text : Option String
deriving DecidableEq, Repr

/-- A Gemini candidate. `contentParts` models the optional chain `content?.parts`
(`none` when `content` or `parts` is missing). -/
structure Candidate where
  contentParts : Option (List ContentPart)
  finishReason : Option String
deriving DecidableEq, Repr

/-- The `promptFeedback` object of a Gemini response. -/
structure PromptFeedback where
  blockReason : Option String
deriving DecidableEq, Repr

/-- The Gemini response envelope, with every field optional as in the JS optional
chains `response?.candidates?.[0]` and `response?.promptFeedback?.blockReason`. -/
structure GeminiResponse where
  candidates : Option (List Candidate)
  promptFeedback : Option PromptFeedback
deriving DecidableEq, Repr

/-- The row the handler inserts into the `predictions` table (lines 158-164 of the source). -/
structure InsertPayload where
  team_a : String
  team_b : String
  match_category : String
  prediction_data : JsonVal
  status : String
deriving DecidableEq, Repr

/-- The row returned by `.insert(...).select().single()`: per the spec the store
returns the inserted row; `extra` are the DB-generated columns (id, timestamps). -/
structure SavedRow where
  payload : InsertPayload
  extra : List (String × String)
deriving DecidableEq, Repr

/-- The inbound HTTP event: the handler reads `event.httpMethod` and `event.body`. -/
structure Event where
  httpMethod : String
  body : String
deriving DecidableEq, Repr

/-- Oracles for the three external effects. `bodyParse` is `JSON.parse(event.body)`
(error = the thrown SyntaxError message); `aiResult` is `ai.models.generateContent`
applied to the prompt (error = the rejection message); `jsonParse` is
`JSON.parse(predictionText)` (`none` = throws); `dbResult` is the supabase insert
(error = `dbError.message`, ok = the DB-generated extra columns of the saved row). -/
structure Env where
  bodyParse : String → Except String ReqBody
  aiResult : String → Except String GeminiResponse
  jsonParse : String → Option JsonVal
  dbResult : InsertPayload → Except String (List (String × String))

/-- An outbound call made by the handler: the AI-completion call or the DB insert. -/
inductive Call where
  | aiCall : Call
  | dbInsert : InsertPayload → Call
deriving DecidableEq, Repr

/-- Response body: `JSON.stringify({error: msg})` or `JSON.stringify(savedPrediction)`. -/
inductive RespBody where
  | errorObj : String → RespBody
  | row : SavedRow → RespBody
deriving DecidableEq, Repr

/-- The handler's HTTP response. -/
structure Response where
  statusCode : Nat
  body : RespBody
deriving DecidableEq, Repr

/-- JS truthiness of an optional string: `undefined` and the empty string are falsy. -/
def truthyStr : Option String → Bool
  | none => false
  | some s => s != ""

/-- JS `String.prototype.includes`: substring test. -/
def strContains (s pat : String) : Bool :=
  s.data.tails.any (fun t => pat.data.isPrefixOf t)

/-- JS `String.prototype.toLowerCase` restricted to ASCII, which is all the
classifier compares against (character-list form so that proofs can evaluate it). -/
def toLowerStr (s : String) : String :=
  String.mk (s.data.map Char.toLower)

/-- JS `String.prototype.startsWith` (character-list form so that proofs can
evaluate it). -/
def strStartsWith (s pre : String) : Bool :=
  pre.data.isPrefixOf s.data

/-- The prompt built at line 103 of the source. -/
def buildPrompt (req : ReqBody) : String :=
  "Analyze the upcoming " ++ req.matchCategory ++ "'s soccer match between " ++
    req.teamA ++ " (Home) and " ++ req.teamB ++
    " (Away). Provide a detailed prediction including analysis, key stats, betting tips, and player information."

/-- Optional chain `response?.candidates?.[0]` (line 117). -/
def candidateOf (r : GeminiResponse) : Option Candidate :=
  r.candidates.bind List.head?

/-- Optional chain `response?.promptFeedback?.blockReason` (line 118). -/
def blockReasonOf (r : GeminiResponse) : Option String :=
  r.promptFeedback.bind PromptFeedback.blockReason

/-- Optional chain `candidate.content?.parts?.[0]?.text`. -/
def candidateText (c : Candidate) : Option String :=
  c.contentParts.bind (fun ps => ps.head?.bind ContentPart.text)

/-- JS `candidate?.finishReason || 'NO_CANDIDATE'` (line 128): `||` takes the
default when the left side is falsy (absent or empty). -/
def finishReasonOf (candidate : Option Candidate) : String :=
  match candidate.bind Candidate.finishReason with
  | some r => if r == "" then "NO_CANDIDATE" else r
  | none => "NO_CANDIDATE"

/-- Message thrown at line 123 when the prompt was blocked. -/
def safetyBlockMsg (br : String) : String :=
  "The request was blocked by the AI's safety filter (" ++ br ++ "). Please try different team names."

/-- Default user message at line 131 for an invalid or empty response. -/
def noCandidateMsg : String :=
  "The AI did not return a valid prediction. This can happen with very obscure teams or due to network issues."

/-- User message at line 133 for finish reason SAFETY. -/
def safetyFinishMsg : String :=
  "The AI's response was blocked by its safety filter. Please try a different match-up."

/-- User message at line 135 for finish reason MAX_TOKENS. -/
def maxTokensMsg : String :=
  "The AI's response was too long and was cut off before it could be completed."

/-- Selection of the user message thrown at line 137. -/
def emptyResponseMsg (finishReason : String) : String :=
  if finishReason == "SAFETY" then safetyFinishMsg
  else if finishReason == "MAX_TOKENS" then maxTokensMsg
  else noCandidateMsg

/-- Message thrown at line 152 when the candidate text is not valid JSON. -/
def invalidJsonMsg : String :=
  "The AI returned an invalid JSON response. Please try again."

/-- Message thrown at line 170 when the insert reports an error. -/
def dbFailMsg (m : String) : String :=
  "Failed to save prediction to the database: " ++ m

/-- Generic fallback message of the final else branch (line 207). -/
def genericMsg : String :=
  "[Prediction Error] An unexpected issue occurred."

/-- Replacement message of the 401 branch (line 190). -/
def apiKeyErrorMsg : String :=
  "[API Key Error] The Gemini API key is invalid or missing. Please check the server configuration."

/-- Replacement message of the 429 branch (line 193). -/
def quotaErrorMsg : String :=
  "[Quota Error] The application has exceeded its API usage limit. Please try again later."

/-- Replacement message of the database branch (line 202). -/
def dbErrorMsg : String :=
  "[Database Error] A problem occurred while saving the prediction."

/-- The catch block of the handler (lines 180-215): maps a thrown error message to
a status code and a user-facing message by substring matching. The entry
`error.message || 'An unknown error occurred.'` is the first line. -/
def classifyError (raw : String) : Nat × String :=
  let errorMessage := if raw == "" then "An unknown error occurred." else raw
  if strContains (toLowerStr errorMessage) "api key not valid" then
    (401, apiKeyErrorMsg)
  else if strContains (toLowerStr errorMessage) "quota" then
    (429, quotaErrorMsg)
  else if strContains errorMessage "safety filter" then
    (400, "[Safety Block] " ++ errorMessage)
  else if strContains errorMessage "JSON" then
    (500, "[Invalid Response] " ++ errorMessage)
  else if strContains errorMessage "database" then
    (500, dbErrorMsg)
  else
    (500, if strStartsWith errorMessage "[" then errorMessage else genericMsg)

/-- The try block of the handler (lines 97-178): parse the body, call the AI,
validate, parse the candidate text, insert; returns the saved row or the thrown
error message, together with the trace of outbound calls. -/
def runTry (ev : Event) (env : Env) : Except String SavedRow × List Call :=
  match env.bodyParse ev.body with
  | .error m => (.error m, [])
  | .ok req =>
    match env.aiResult (buildPrompt req) with
    | .error m => (.error m, [.aiCall])
    | .ok response =>
      let candidate := candidateOf response
      let blockReason := blockReasonOf response
      if truthyStr blockReason then
        (.error (safetyBlockMsg (blockReason.getD "")), [.aiCall])
      else if !truthyStr (candidate.bind candidateText) then
        (.error (emptyResponseMsg (finishReasonOf candidate)), [.aiCall])
      else
        let predictionText := (candidate.bind candidateText).getD ""
        match env.jsonParse predictionText with
        | none => (.error invalidJsonMsg, [.aiCall])
        | some predictionData =>
          let payload : InsertPayload :=
            { team_a := req.teamA, team_b := req.teamB,
              match_category := req.matchCategory,
              prediction_data := predictionData, status := "pending" }
          match env.dbResult payload with
          | .error dbMsg => (.error (dbFailMsg dbMsg), [.aiCall, .dbInsert payload])
          | .ok extra => (.ok { payload := payload, extra := extra }, [.aiCall, .dbInsert payload])

/-- The exported handler (lines 92-217): 405 for non-POST, otherwise the try block
with its thrown messages classified by the catch block. -/
def handler (ev : Event) (env : Env) : Response × List Call :=
  if ev.httpMethod != "POST" then
    ({ statusCode := 405, body := .errorObj "Method Not Allowed" }, [])
  else
    match runTry ev env with
    | (.ok savedPrediction, calls) =>
      ({ statusCode := 200, body := .row savedPrediction }, calls)
    | (.error msg, calls) =>
      ({ statusCode := (classifyError msg).1, body := .errorObj (classifyError msg).2 }, calls)

/-- Concrete POST event used by the witnesses. -/
def evPost : Event :=
  { httpMethod := "POST", body := "request body" }

/-- Concrete parsed request body used by the witnesses. -/
def okBody : ReqBody :=
  { teamA := "Arsenal", teamB := "Chelsea", matchCategory := "Premier League" }

/-- Concrete candidate with text, used by the witnesses. -/
def okCand : Candidate :=
  { contentParts := some [{ text := some "rawjson" }], finishReason := some "STOP" }

/-- Concrete Gemini response with one good candidate. -/
def okResp : GeminiResponse :=
  { candidates := some [okCand], promptFeedback := none }

/-- Concrete parsed prediction value. -/
def okJson : JsonVal :=
  { val := "parsed" }

/-- The insert payload the handler builds from `okBody` and `okJson`. -/
def okPayload : InsertPayload :=
  { team_a := "Arsenal", team_b := "Chelsea", match_category := "Premier League",
    prediction_data := okJson, status := "pending" }

/-- Environment in which every external call succeeds. -/
def okEnv : Env :=
  { bodyParse := fun _ => .ok okBody,
    aiResult := fun _ => .ok okResp,
    jsonParse := fun _ => some okJson,
    dbResult := fun _ => .ok [("id", "1")] }

/-- Gemini response whose prompt was blocked with a realistic block reason. -/
def blockedResp : GeminiResponse :=
  { candidates := none, promptFeedback := some { blockReason := some "PROHIBITED_CONTENT" } }

/-- Environment whose prompt is blocked with a realistic block reason. -/
def blockedEnv : Env :=
  { okEnv with aiResult := fun _ => .ok blockedResp }

/-- Gemini response whose prompt was blocked with the adversarial reason "QUOTA". -/
def quotaBlockResp : GeminiResponse :=
  { candidates := none, promptFeedback := some { blockReason := some "QUOTA" } }

/-- Environment whose prompt is blocked with the adversarial block reason "QUOTA". -/
def quotaBlockEnv : Env :=
  { okEnv with aiResult := fun _ => .ok quotaBlockResp }

/-- Environment whose candidate text is not valid JSON. -/
def badJsonEnv : Env :=
  { okEnv with jsonParse := fun _ => none }

/-- Environment whose inbound body is malformed; the parse error message is the
V8 SyntaxError text for an empty/truncated JSON document. -/
def badBodyEnv : Env :=
  { okEnv with bodyParse := fun _ => .error "Unexpected end of JSON input" }

/-- Environment whose insert fails with an ordinary constraint message. -/
def dbFailEnv : Env :=
  { okEnv with dbResult := fun _ => .error "duplicate key value violates unique constraint" }

/-- Environment whose insert fails with a message containing "quota". -/
def quotaDbEnv : Env :=
  { okEnv with dbResult := fun _ => .error "project exceeded its disk quota" }

/-- Gemini response with an empty candidate list. -/
def noCandResp : GeminiResponse :=
  { candidates := some [], promptFeedback := none }

/-- Environment returning no candidate at all. -/
def noCandEnv : Env :=
  { okEnv with aiResult := fun _ => .ok noCandResp }

/-- Gemini response whose only candidate has finish reason MAX_TOKENS and no text. -/
def maxTokResp : GeminiResponse :=
  { candidates := some [{ contentParts := none, finishReason := some "MAX_TOKENS" }],
    promptFeedback := none }

/-- Environment returning a candidate with finish reason MAX_TOKENS and no text. -/
def maxTokEnv : Env :=
  { okEnv with aiResult := fun _ => .ok maxTokResp }

/-- Gemini response whose only candidate has finish reason SAFETY and no text. -/
def safetyFinResp : GeminiResponse :=
  { candidates := some [{ contentParts := none, finishReason := some "SAFETY" }],
    promptFeedback := none }

/-- Environment returning a candidate with finish reason SAFETY and no text. -/
def safetyFinEnv : Env :=
  { okEnv with aiResult := fun _ => .ok safetyFinResp }

/-- Gemini response whose only candidate has text but finish reason MAX_TOKENS. -/
def maxTokTextResp : GeminiResponse :=
  { candidates := some [{ contentParts := some [{ text := some "rawjson" }],
                          finishReason := some "MAX_TOKENS" }],
    promptFeedback := none }

/-- Environment returning a candidate with text but finish reason MAX_TOKENS. -/
def maxTokTextEnv : Env :=
  { okEnv with aiResult := fun _ => .ok maxTokTextResp }

@[simp]
lemma truthyStr_none : truthyStr none = false := rfl

@[simp]
lemma truthyStr_some (s : String) : truthyStr (some s) = (s != "") := rfl

lemma strContains_append_left (a b pat : String) (h : strContains a pat = true) :
    strContains (a ++ b) pat = true := by
  simp only [strContains, List.any_eq_true, List.mem_tails, List.isPrefixOf_iff_prefix] at h ⊢
  obtain ⟨t, hts, htp⟩ := h
  obtain ⟨s, hs⟩ := hts
  refine ⟨t ++ b.data, ⟨s, ?_⟩, htp.trans (List.prefix_append t b.data)⟩
  rw [String.data_append, ← hs, List.append_assoc]

/-- C8: for every request with a method other than POST, the handler returns 405
and performs no outbound call at all (the call trace is empty, so in particular
neither the AI-completion call nor the database insert happens). -/
theorem non_post_method_rejected (ev : Event) (env : Env) (hm : ev.httpMethod ≠ "POST") :
    handler ev env = ({ statusCode := 405, body := .errorObj "Method Not Allowed" }, []) := by
  simp [handler, hm]

/-- C8 witness: a GET request is rejected with 405 and an empty trace. -/
theorem non_post_method_rejected_witness :
    handler { httpMethod := "GET", body := "x" } okEnv =
      ({ statusCode := 405, body := .errorObj "Method Not Allowed" }, []) :=
  non_post_method_rejected { httpMethod := "GET", body := "x" } okEnv (by decide)

/-- C2: the outer catch classifies a caught error message by substring tests, in
order: "api key not valid" (case-insensitive) gives 401; else "quota"
(case-insensitive) gives 429; else "safety filter" gives 400 with the message
echoed behind a "[Safety Block]" prefix; else "JSON" gives 500 with an
"[Invalid Response]" prefix; else "database" gives 500 with the fixed
"[Database Error]" message; anything else gives 500 with the message replaced
by the generic fallback unless it already starts with the bracket character. -/
theorem error_classification (m : String) :
    (strContains (toLowerStr m) "api key not valid" = true →
      classifyError m = (401, apiKeyErrorMsg)) ∧
    (strContains (toLowerStr m) "api key not valid" = false →
      strContains (toLowerStr m) "quota" = true →
      classifyError m = (429, quotaErrorMsg)) ∧
    (strContains (toLowerStr m) "api key not valid" = false →
      strContains (toLowerStr m) "quota" = false →
      strContains m "safety filter" = true →
      classifyError m = (400, "[Safety Block] " ++ m)) ∧
    (strContains (toLowerStr m) "api key not valid" = false →
      strContains (toLowerStr m) "quota" = false →
      strContains m "safety filter" = false →
      strContains m "JSON" = true →
      classifyError m = (500, "[Invalid Response] " ++ m)) ∧
    (strContains (toLowerStr m) "api key not valid" = false →
      strContains (toLowerStr m) "quota" = false →
      strContains m "safety filter" = false →
      strContains m "JSON" = false →
      strContains m "database" = true →
      classifyError m = (500, dbErrorMsg)) ∧
    (strContains (toLowerStr m) "api key not valid" = false →
      strContains (toLowerStr m) "quota" = false →
      strContains m "safety filter" = false →
      strContains m "JSON" = false →
      strContains m "database" = false →
      classifyError m = (500, if strStartsWith m "[" then m else genericMsg)) := by
  by_cases hm : m = ""
  · subst hm
    exact ⟨fun h => absurd h (by decide),
           fun _ h => absurd h (by decide),
           fun _ _ h => absurd h (by decide),
           fun _ _ _ h => absurd h (by decide),
           fun _ _ _ _ h => absurd h (by decide),
           fun _ _ _ _ _ => by decide⟩
  · have hb : (m == "") = false := by simp [hm]
    refine ⟨fun h1 => ?_, fun h1 h2 => ?_, fun h1 h2 h3 => ?_,
            fun h1 h2 h3 h4 => ?_, fun h1 h2 h3 h4 h5 => ?_, fun h1 h2 h3 h4 h5 => ?_⟩
    · simp [classifyError, hb, h1]
    · simp [classifyError, hb, h1, h2]
    · simp [classifyError, hb, h1, h2, h3]
    · simp [classifyError, hb, h1, h2, h3, h4]
    · simp [classifyError, hb, h1, h2, h3, h4, h5]
    · simp [classifyError, hb, h1, h2, h3, h4, h5]

/-- C2 witness: a message containing "API key not valid" (mixed case) classifies
to 401 with the fixed API-key message. -/
theorem error_classification_witness :
    classifyError "API key not VALID for this project" = (401, apiKeyErrorMsg) :=
  (error_classification "API key not VALID for this project").1 (by decide)

/-- C1: for every POST request whose body parses to teamA/teamB/matchCategory,
when the provider returns an unblocked candidate with non-empty parseable text
and the insert succeeds, the handler returns 200 with the single saved row,
whose payload echoes team_a = teamA, team_b = teamB,
match_category = matchCategory and carries status "pending". -/
theorem handler_success_returns_saved_row
    (ev : Event) (env : Env) (teamA teamB matchCategory : String)
    (resp : GeminiResponse) (c : Candidate) (text : String) (j : JsonVal)
    (extra : List (String × String))
    (hm : ev.httpMethod = "POST")
    (hb : env.bodyParse ev.body = .ok ⟨teamA, teamB, matchCategory⟩)
    (ha : env.aiResult (buildPrompt ⟨teamA, teamB, matchCategory⟩) = .ok resp)
    (hblock : truthyStr (blockReasonOf resp) = false)
    (hc : candidateOf resp = some c)
    (ht : candidateText c = some text)
    (hne : text ≠ "")
    (hj : env.jsonParse text = some j)
    (hd : env.dbResult ⟨teamA, teamB, matchCategory, j, "pending"⟩ = .ok extra) :
    handler ev env =
      ({ statusCode := 200,
         body := .row { payload := ⟨teamA, teamB, matchCategory, j, "pending"⟩, extra := extra } },
       [Call.aiCall, Call.dbInsert ⟨teamA, teamB, matchCategory, j, "pending"⟩]) := by
  have hrt : runTry ev env =
      (.ok { payload := ⟨teamA, teamB, matchCategory, j, "pending"⟩, extra := extra },
       [Call.aiCall, Call.dbInsert ⟨teamA, teamB, matchCategory, j, "pending"⟩]) := by
    simp [runTry, hb, ha, hblock, hc, ht, hj, hd, hne]
  simp [handler, hm, hrt]

/-- C1 witness: in the all-success environment the handler returns 200 with the
saved row echoing the request fields and status "pending". -/
theorem handler_success_returns_saved_row_witness :
    handler evPost okEnv =
      ({ statusCode := 200, body := .row { payload := okPayload, extra := [("id", "1")] } },
       [Call.aiCall, Call.dbInsert okPayload]) :=
  handler_success_returns_saved_row evPost okEnv "Arsenal" "Chelsea" "Premier League"
    okResp okCand "rawjson" okJson [("id", "1")]
    rfl rfl rfl rfl rfl rfl (by decide) rfl rfl

lemma handler_error (ev : Event) (env : Env) (msg : String) (calls : List Call)
    (hm : ev.httpMethod = "POST") (hr : runTry ev env = (.error msg, calls)) :
    handler ev env =
      ({ statusCode := (classifyError msg).1, body := .errorObj (classifyError msg).2 }, calls) := by
  simp [handler, hm, hr]

/-- C3 (amended): for every provider response with a non-empty blockReason, the
handler makes no database insert, and returns 400 with a "[Safety Block]"
message provided the block reason's text does not put "quota" or
"api key not valid" (case-insensitively) into the thrown safety message. -/
theorem blocked_prompt_400_no_insert
    (ev : Event) (env : Env) (req : ReqBody) (resp : GeminiResponse) (br : String)
    (hm : ev.httpMethod = "POST")
    (hb : env.bodyParse ev.body = .ok req)
    (ha : env.aiResult (buildPrompt req) = .ok resp)
    (hbr : blockReasonOf resp = some br)
    (hne : br ≠ "")
    (hk : strContains (toLowerStr (safetyBlockMsg br)) "api key not valid" = false)
    (hq : strContains (toLowerStr (safetyBlockMsg br)) "quota" = false) :
    handler ev env =
      ({ statusCode := 400, body := .errorObj ("[Safety Block] " ++ safetyBlockMsg br) },
       [Call.aiCall]) ∧
    ∀ p, Call.dbInsert p ∉ (handler ev env).2 := by
  have hrt : runTry ev env = (.error (safetyBlockMsg br), [Call.aiCall]) := by
    simp [runTry, hb, ha, hbr, hne]
  have hsf : strContains (safetyBlockMsg br) "safety filter" = true := by
    have h1 : strContains "The request was blocked by the AI's safety filter (" "safety filter" = true := by
      decide
    exact strContains_append_left _ "). Please try different team names." _
      (strContains_append_left _ br _ h1)
  have hmne : (safetyBlockMsg br == "") = false := by
    rw [beq_eq_false_iff_ne]
    intro e
    rw [e] at hsf
    exact absurd hsf (by decide)
  have hcl : classifyError (safetyBlockMsg br) = (400, "[Safety Block] " ++ safetyBlockMsg br) := by
    simp [classifyError, hmne, hk, hq, hsf]
  refine ⟨?_, ?_⟩
  · rw [handler_error ev env _ _ hm hrt]
    simp [hcl]
  · rw [handler_error ev env _ _ hm hrt]
    simp

/-- C3 witness: a prompt blocked with reason PROHIBITED_CONTENT yields 400 and no insert. -/
theorem blocked_prompt_400_no_insert_witness :
    handler evPost blockedEnv =
      ({ statusCode := 400,
         body := .errorObj ("[Safety Block] " ++ safetyBlockMsg "PROHIBITED_CONTENT") },
       [Call.aiCall]) ∧
    ∀ p, Call.dbInsert p ∉ (handler evPost blockedEnv).2 :=
  blocked_prompt_400_no_insert evPost blockedEnv okBody blockedResp "PROHIBITED_CONTENT"
    rfl rfl rfl rfl (by decide) (by decide) (by decide)

/-- C3 counterexample: a non-empty blockReason "QUOTA" makes the handler return
429, not 400, because the catch block's "quota" substring test fires first. -/
theorem blocked_prompt_quota_counterexample :
    blockReasonOf quotaBlockResp = some "QUOTA" ∧
    handler evPost quotaBlockEnv =
      ({ statusCode := 429, body := .errorObj quotaErrorMsg }, [Call.aiCall]) :=
  ⟨rfl, by decide⟩

/-- C4: for every provider response with a present, non-empty candidate text that
fails to parse as JSON, the handler returns 500 with a message containing
"Invalid Response", and the database insert is never invoked. -/
theorem invalid_json_500_no_insert
    (ev : Event) (env : Env) (req : ReqBody) (resp : GeminiResponse) (c : Candidate) (text : String)
    (hm : ev.httpMethod = "POST")
    (hb : env.bodyParse ev.body = .ok req)
    (ha : env.aiResult (buildPrompt req) = .ok resp)
    (hblock : truthyStr (blockReasonOf resp) = false)
    (hc : candidateOf resp = some c)
    (ht : candidateText c = some text)
    (hne : text ≠ "")
    (hj : env.jsonParse text = none) :
    handler ev env =
      ({ statusCode := 500, body := .errorObj ("[Invalid Response] " ++ invalidJsonMsg) },
       [Call.aiCall]) ∧
    strContains ("[Invalid Response] " ++ invalidJsonMsg) "Invalid Response" = true ∧
    ∀ p, Call.dbInsert p ∉ (handler ev env).2 := by
  have hrt : runTry ev env = (.error invalidJsonMsg, [Call.aiCall]) := by
    simp [runTry, hb, ha, hblock, hc, ht, hne, hj]
  have hcl : classifyError invalidJsonMsg = (500, "[Invalid Response] " ++ invalidJsonMsg) := by
    decide
  refine ⟨?_, by decide, ?_⟩
  · rw [handler_error ev env _ _ hm hrt]
    simp [hcl]
  · rw [handler_error ev env _ _ hm hrt]
    simp

/-- C4 witness: unparseable candidate text yields 500 "[Invalid Response] ..." and no insert. -/
theorem invalid_json_500_no_insert_witness :
    handler evPost badJsonEnv =
      ({ statusCode := 500, body := .errorObj ("[Invalid Response] " ++ invalidJsonMsg) },
       [Call.aiCall]) ∧
    strContains ("[Invalid Response] " ++ invalidJsonMsg) "Invalid Response" = true ∧
    ∀ p, Call.dbInsert p ∉ (handler evPost badJsonEnv).2 :=
  invalid_json_500_no_insert evPost badJsonEnv okBody okResp okCand "rawjson"
    rfl rfl rfl rfl rfl rfl (by decide) rfl

/-- C5 (amended): for every run in which the insert returns an error, the insert
was invoked exactly once, and the handler returns 500 with the fixed
"[Database Error]" message provided the store's error text does not contain
"api key not valid" or "quota" (case-insensitively), "safety filter" or "JSON". -/
theorem db_error_500_single_insert
    (ev : Event) (env : Env) (teamA teamB matchCategory : String)
    (resp : GeminiResponse) (c : Candidate) (text : String) (j : JsonVal) (dbMsg : String)
    (hm : ev.httpMethod = "POST")
    (hb : env.bodyParse ev.body = .ok ⟨teamA, teamB, matchCategory⟩)
    (ha : env.aiResult (buildPrompt ⟨teamA, teamB, matchCategory⟩) = .ok resp)
    (hblock : truthyStr (blockReasonOf resp) = false)
    (hc : candidateOf resp = some c)
    (ht : candidateText c = some text)
    (hne : text ≠ "")
    (hj : env.jsonParse text = some j)
    (hd : env.dbResult ⟨teamA, teamB, matchCategory, j, "pending"⟩ = .error dbMsg)
    (hk : strContains (toLowerStr (dbFailMsg dbMsg)) "api key not valid" = false)
    (hq : strContains (toLowerStr (dbFailMsg dbMsg)) "quota" = false)
    (hs : strContains (dbFailMsg dbMsg) "safety filter" = false)
    (hjs : strContains (dbFailMsg dbMsg) "JSON" = false) :
    handler ev env =
      ({ statusCode := 500, body := .errorObj dbErrorMsg },
       [Call.aiCall, Call.dbInsert ⟨teamA, teamB, matchCategory, j, "pending"⟩]) ∧
    strContains dbErrorMsg "Database Error" = true ∧
    ((handler ev env).2.count (Call.dbInsert ⟨teamA, teamB, matchCategory, j, "pending"⟩)) = 1 := by
  have hrt : runTry ev env =
      (.error (dbFailMsg dbMsg),
       [Call.aiCall, Call.dbInsert ⟨teamA, teamB, matchCategory, j, "pending"⟩]) := by
    simp [runTry, hb, ha, hblock, hc, ht, hne, hj, hd]
  have hdb : strContains (dbFailMsg dbMsg) "database" = true := by
    have h1 : strContains "Failed to save prediction to the database: " "database" = true := by
      decide
    exact strContains_append_left _ dbMsg _ h1
  have hmne : (dbFailMsg dbMsg == "") = false := by
    rw [beq_eq_false_iff_ne]
    intro e
    rw [e] at hdb
    exact absurd hdb (by decide)
  have hcl : classifyError (dbFailMsg dbMsg) = (500, dbErrorMsg) := by
    simp [classifyError, hmne, hk, hq, hs, hjs, hdb]
  refine ⟨?_, by decide, ?_⟩
  · rw [handler_error ev env _ _ hm hrt]
    simp [hcl]
  · rw [handler_error ev env _ _ hm hrt]
    simp [List.count_cons]

/-- C5 witness: an ordinary constraint-violation insert error yields 500 with the
"[Database Error]" message and exactly one insert call. -/
theorem db_error_500_single_insert_witness :
    handler evPost dbFailEnv =
      ({ statusCode := 500, body := .errorObj dbErrorMsg },
       [Call.aiCall, Call.dbInsert okPayload]) ∧
    strContains dbErrorMsg "Database Error" = true ∧
    ((handler evPost dbFailEnv).2.count (Call.dbInsert okPayload)) = 1 :=
  db_error_500_single_insert evPost dbFailEnv "Arsenal" "Chelsea" "Premier League"
    okResp okCand "rawjson" okJson "duplicate key value violates unique constraint"
    rfl rfl rfl rfl rfl rfl (by decide) rfl rfl (by decide) (by decide) (by decide) (by decide)

/-- C5 counterexample: an insert error whose text contains "quota" makes the
handler return 429 with the quota message, not 500 with "Database Error". -/
theorem db_error_quota_counterexample :
    handler evPost quotaDbEnv =
      ({ statusCode := 429, body := .errorObj quotaErrorMsg },
       [Call.aiCall, Call.dbInsert okPayload]) ∧
    strContains quotaErrorMsg "Database Error" = false :=
  ⟨by decide, by decide⟩

/-- C6 (amended): for every POST request whose body fails to parse, the handler
makes no outbound call; when the parse error message contains "JSON" (as V8
SyntaxError messages do) and none of the earlier classified substrings, the
response is 500 with the "[Invalid Response]" prefix, not the generic fallback. -/
theorem malformed_body_invalid_response
    (ev : Event) (env : Env) (m : String)
    (hm : ev.httpMethod = "POST")
    (hb : env.bodyParse ev.body = .error m)
    (hjs : strContains m "JSON" = true)
    (hk : strContains (toLowerStr m) "api key not valid" = false)
    (hq : strContains (toLowerStr m) "quota" = false)
    (hs : strContains m "safety filter" = false) :
    handler ev env =
      ({ statusCode := 500, body := .errorObj ("[Invalid Response] " ++ m) }, []) := by
  have hrt : runTry ev env = (.error m, []) := by
    simp [runTry, hb]
  have hmne : (m == "") = false := by
    rw [beq_eq_false_iff_ne]
    intro e
    rw [e] at hjs
    exact absurd hjs (by decide)
  have hcl : classifyError m = (500, "[Invalid Response] " ++ m) := by
    simp [classifyError, hmne, hk, hq, hs, hjs]
  rw [handler_error ev env _ _ hm hrt]
  simp [hcl]

/-- C6 witness: the V8 parse error message for a truncated body yields 500 with
the "[Invalid Response]" prefix and an empty call trace. -/
theorem malformed_body_invalid_response_witness :
    handler evPost badBodyEnv =
      ({ statusCode := 500,
         body := .errorObj ("[Invalid Response] " ++ "Unexpected end of JSON input") }, []) :=
  malformed_body_invalid_response evPost badBodyEnv "Unexpected end of JSON input"
    rfl rfl (by decide) (by decide) (by decide) (by decide)

/-- C6 counterexample: for a malformed body with the V8 parse error message, the
response body is the "[Invalid Response]"-prefixed message, not the generic
"[Prediction Error]" fallback the claim requires. -/
theorem malformed_body_counterexample :
    handler evPost badBodyEnv =
      ({ statusCode := 500,
         body := .errorObj "[Invalid Response] Unexpected end of JSON input" }, []) ∧
    "[Invalid Response] Unexpected end of JSON input" ≠ genericMsg :=
  ⟨by decide, by decide⟩

/-- C7 (code observed at the failing inputs): with a missing candidate or missing
text the handler does not return the constructed reason-specific messages. The
no-candidate and MAX_TOKENS cases both collapse to the identical generic
"[Prediction Error]" body, because the user messages built at lines 131-137 do
not start with the bracket character and are replaced by the catch-all; the
SAFETY case returns 400, not 500. -/
theorem empty_candidate_observed :
    handler evPost noCandEnv =
      ({ statusCode := 500, body := .errorObj genericMsg }, [Call.aiCall]) ∧
    handler evPost maxTokEnv =
      ({ statusCode := 500, body := .errorObj genericMsg }, [Call.aiCall]) ∧
    handler evPost safetyFinEnv =
      ({ statusCode := 400, body := .errorObj ("[Safety Block] " ++ safetyFinishMsg) },
       [Call.aiCall]) :=
  ⟨by decide, by decide, by decide⟩

lemma runTry_insert_mem
    (ev : Event) (env : Env) (p : InsertPayload)
    (hp : Call.dbInsert p ∈ (runTry ev env).2) :
    ∃ req resp c text j,
      env.bodyParse ev.body = .ok req ∧
      env.aiResult (buildPrompt req) = .ok resp ∧
      truthyStr (blockReasonOf resp) = false ∧
      candidateOf resp = some c ∧
      candidateText c = some text ∧ text ≠ "" ∧
      env.jsonParse text = some j ∧
      p = ⟨req.teamA, req.teamB, req.matchCategory, j, "pending"⟩ ∧
      (runTry ev env).2 = [Call.aiCall, Call.dbInsert p] := by
  cases h1 : env.bodyParse ev.body with
  | error m => simp [runTry, h1] at hp
  | ok req =>
    cases h2 : env.aiResult (buildPrompt req) with
    | error m => simp [runTry, h1, h2] at hp
    | ok resp =>
      cases h3 : truthyStr (blockReasonOf resp) with
      | true => simp [runTry, h1, h2, h3] at hp
      | false =>
        cases h4 : (candidateOf resp).bind candidateText with
        | none => simp [runTry, h1, h2, h3, h4] at hp
        | some text =>
          by_cases h5 : text = ""
          · subst h5
            simp [runTry, h1, h2, h3, h4] at hp
          · cases h6 : env.jsonParse text with
            | none => simp [runTry, h1, h2, h3, h4, h5, h6] at hp
            | some j =>
              have hr2 : (runTry ev env).2 =
                  [Call.aiCall,
                   Call.dbInsert ⟨req.teamA, req.teamB, req.matchCategory, j, "pending"⟩] := by
                cases h7 : env.dbResult ⟨req.teamA, req.teamB, req.matchCategory, j, "pending"⟩ with
                | error d => simp [runTry, h1, h2, h3, h4, h5, h6, h7]
                | ok extra => simp [runTry, h1, h2, h3, h4, h5, h6, h7]
              rw [hr2] at hp
              have hp2 : p = ⟨req.teamA, req.teamB, req.matchCategory, j, "pending"⟩ := by
                simpa using hp
              obtain ⟨c, hc, ht⟩ : ∃ c, candidateOf resp = some c ∧ candidateText c = some text := by
                cases hco : candidateOf resp with
                | none => rw [hco] at h4; simp at h4
                | some c =>
                  rw [hco] at h4
                  simp only [Option.some_bind] at h4
                  exact ⟨c, rfl, h4⟩
              refine ⟨req, resp, c, text, j, rfl, h2, h3, hc, ht, h5, h6, hp2, ?_⟩
              rw [hp2]
              exact hr2

/-- C9: in every run, a database insert appearing in the trace implies that the
body parse, the AI call, the block-reason check, the candidate-text presence
check and the JSON parse all succeeded, and the trace is exactly the AI call
followed by that single insert — the insert never starts before the AI result
is fully validated. -/
theorem insert_only_after_validation
    (ev : Event) (env : Env) (p : InsertPayload)
    (hp : Call.dbInsert p ∈ (handler ev env).2) :
    ∃ req resp c text j,
      env.bodyParse ev.body = .ok req ∧
      env.aiResult (buildPrompt req) = .ok resp ∧
      truthyStr (blockReasonOf resp) = false ∧
      candidateOf resp = some c ∧
      candidateText c = some text ∧ text ≠ "" ∧
      env.jsonParse text = some j ∧
      (handler ev env).2 = [Call.aiCall, Call.dbInsert p] := by
  have hpost : ev.httpMethod = "POST" := by
    by_contra h
    simp [handler, h] at hp
  have hsnd : (handler ev env).2 = (runTry ev env).2 := by
    cases hr : runTry ev env with
    | mk r calls => cases r <;> simp [handler, hpost, hr]
  rw [hsnd] at hp
  obtain ⟨req, resp, c, text, j, h1, h2, h3, hc, ht, h5, h6, hp2, hr⟩ :=
    runTry_insert_mem ev env p hp
  refine ⟨req, resp, c, text, j, h1, h2, h3, hc, ht, h5, h6, ?_⟩
  rw [hsnd]
  exact hr

/-- C9 witness: in the all-success run the insert in the trace comes with all
validations passed and the trace is the AI call then the one insert. -/
theorem insert_only_after_validation_witness :
    ∃ req resp c text j,
      okEnv.bodyParse evPost.body = .ok req ∧
      okEnv.aiResult (buildPrompt req) = .ok resp ∧
      truthyStr (blockReasonOf resp) = false ∧
      candidateOf resp = some c ∧
      candidateText c = some text ∧ text ≠ "" ∧
      okEnv.jsonParse text = some j ∧
      (handler evPost okEnv).2 = [Call.aiCall, Call.dbInsert okPayload] :=
  insert_only_after_validation evPost okEnv okPayload (by decide)

/-- C10: when the first candidate carries non-empty text and the prompt is not
blocked, the handler parses the text and performs the insert whatever the
candidate's finishReason is (fr below is arbitrary, covering SAFETY and
MAX_TOKENS), and a successful insert still yields status 200: a non-STOP
finish reason with text present never produces an error response. -/
theorem finish_reason_ignored_when_text_present
    (ev : Event) (env : Env) (teamA teamB matchCategory : String)
    (cp : Option (List ContentPart)) (fr : Option String) (rest : List Candidate)
    (pf : Option PromptFeedback) (text : String) (j : JsonVal)
    (hm : ev.httpMethod = "POST")
    (hb : env.bodyParse ev.body = .ok ⟨teamA, teamB, matchCategory⟩)
    (ha : env.aiResult (buildPrompt ⟨teamA, teamB, matchCategory⟩) =
      .ok ⟨some (⟨cp, fr⟩ :: rest), pf⟩)
    (hblock : truthyStr (pf.bind PromptFeedback.blockReason) = false)
    (ht : candidateText ⟨cp, fr⟩ = some text)
    (hne : text ≠ "")
    (hj : env.jsonParse text = some j) :
    (handler ev env).2 =
      [Call.aiCall, Call.dbInsert ⟨teamA, teamB, matchCategory, j, "pending"⟩] ∧
    (∀ extra, env.dbResult ⟨teamA, teamB, matchCategory, j, "pending"⟩ = .ok extra →
      (handler ev env).1.statusCode = 200) := by
  constructor
  · cases hd : env.dbResult ⟨teamA, teamB, matchCategory, j, "pending"⟩ with
    | error d =>
      have hrt : runTry ev env =
          (.error (dbFailMsg d),
           [Call.aiCall, Call.dbInsert ⟨teamA, teamB, matchCategory, j, "pending"⟩]) := by
        simp [runTry, hb, ha, candidateOf, blockReasonOf, hblock, ht, hne, hj, hd]
      rw [handler_error ev env _ _ hm hrt]
    | ok extra =>
      have hrt : runTry ev env =
          (.ok { payload := ⟨teamA, teamB, matchCategory, j, "pending"⟩, extra := extra },
           [Call.aiCall, Call.dbInsert ⟨teamA, teamB, matchCategory, j, "pending"⟩]) := by
        simp [runTry, hb, ha, candidateOf, blockReasonOf, hblock, ht, hne, hj, hd]
      simp [handler, hm, hrt]
  · intro extra hd
    have hrt : runTry ev env =
        (.ok { payload := ⟨teamA, teamB, matchCategory, j, "pending"⟩, extra := extra },
         [Call.aiCall, Call.dbInsert ⟨teamA, teamB, matchCategory, j, "pending"⟩]) := by
      simp [runTry, hb, ha, candidateOf, blockReasonOf, hblock, ht, hne, hj, hd]
    simp [handler, hm, hrt]

/-- C10 witness: with finish reason MAX_TOKENS but text present, the insert is
performed and the successful insert yields 200. -/
theorem finish_reason_ignored_witness :
    (handler evPost maxTokTextEnv).2 = [Call.aiCall, Call.dbInsert okPayload] ∧
    (∀ extra, maxTokTextEnv.dbResult okPayload = .ok extra →
      (handler evPost maxTokTextEnv).1.statusCode = 200) :=
  finish_reason_ignored_when_text_present evPost maxTokTextEnv
    "Arsenal" "Chelsea" "Premier League"
    (some [{ text := some "rawjson" }]) (some "MAX_TOKENS") [] none "rawjson" okJson
    rfl rfl rfl rfl rfl (by decide) rfl

end GeminiPredict
